import Mathlib

/-!
Verification of the orchestration pipeline and memory subsystem of the chat
repository. Pure helpers (content normalization, JSON extraction), the memory
write gate and deduplication policy, the long-term store, the critic and
executor stages, the model registry, and the linear pipeline state machine are
shallowly embedded as executable Lean definitions mirroring the Python source
(`app/orchestration/graph.py`, `app/memory/memory_agent.py`,
`app/memory/long_term.py`, `app/memory/models.py`, `app/config/models.py`,
`app/orchestration/critic.py`). External effects (LLM calls, disk, FAISS) are
modelled as oracle parameters; the long-term store models the documented
FAISS-unavailable configuration in which `search` uses the lexical
`_simple_search` fallback.
-/

/-! ## String helpers mirroring the Python built-ins used by the source -/

/-- Boolean prefix test on character lists. -/
def listIsPrefix : List Char → List Char → Bool
  | [], _ => true
  | _ :: _, [] => false
  | a :: as, b :: bs => a == b && listIsPrefix as bs

/-- Boolean infix (contiguous substring) test on character lists. -/
def listIsInfix (needle : List Char) : List Char → Bool
  | [] => listIsPrefix needle []
  | b :: bs => listIsPrefix needle (b :: bs) || listIsInfix needle bs

/-- Model of the Python substring test `needle in hay`. -/
def strContains (hay needle : String) : Bool :=
  listIsInfix needle.data hay.data

/-- Model of Python `str.find(c)`: index of the first occurrence, `-1` if absent. -/
def pyFindAux (cs : List Char) (c : Char) (i : Nat) : Int :=
  match cs with
  | [] => -1
  | x :: xs => if x = c then (i : Int) else pyFindAux xs c (i + 1)

/-- Model of Python `text.find(c)`. -/
def pyFind (s : String) (c : Char) : Int :=
  pyFindAux s.data c 0

/-- Model of Python `str.rfind(c)`: index of the last occurrence, `-1` if absent. -/
def pyRFindAux (cs : List Char) (c : Char) (i : Nat) (best : Int) : Int :=
  match cs with
  | [] => best
  | x :: xs => pyRFindAux xs c (i + 1) (if x = c then (i : Int) else best)

/-- Model of Python `text.rfind(c)`. -/
def pyRFind (s : String) (c : Char) : Int :=
  pyRFindAux s.data c 0 (-1)

/-- Model of the Python slice `text[a:b]`. -/
def strSlice (s : String) (a b : Nat) : String :=
  String.mk ((s.data.drop a).take (b - a))

/-- Model of Python `str.strip()` (drop surrounding whitespace). -/
def pyStrip (s : String) : String :=
  String.mk ((s.data.dropWhile Char.isWhitespace).reverse.dropWhile Char.isWhitespace |>.reverse)

/-- Lower-cases one character, covering ASCII and the Latin-1 accented range
(the alphabets the source's Portuguese phrase lists use), modelling Python
`str.lower()` on the texts this system handles. -/
def pyCharToLower (c : Char) : Char :=
  if 65 ≤ c.toNat ∧ c.toNat ≤ 90 then Char.ofNat (c.toNat + 32)
  else if 0xC0 ≤ c.toNat ∧ c.toNat ≤ 0xDE ∧ c.toNat ≠ 0xD7 then Char.ofNat (c.toNat + 32)
  else c

/-- Model of Python `text.lower()`. -/
def pyToLower (s : String) : String :=
  String.mk (s.data.map pyCharToLower)

/-- Accumulator for `pyWords`. -/
def pyWordsAux (cs : List Char) (cur : List Char) (acc : List String) : List String :=
  match cs with
  | [] => (if cur.isEmpty then acc else String.mk cur.reverse :: acc).reverse
  | c :: rest =>
    if c.isWhitespace then
      if cur.isEmpty then pyWordsAux rest [] acc
      else pyWordsAux rest [] (String.mk cur.reverse :: acc)
    else pyWordsAux rest (c :: cur) acc

/-- Model of Python `text.split()` (split on whitespace runs, dropping
empty fields). -/
def pyWords (s : String) : List String :=
  pyWordsAux s.data [] []

/-! ## JSON values

`Json` models the result of Python `json.loads` and doubles as the model of the
loosely-typed Python dict/list/scalar values the pipeline passes around.
Number lexemes are kept verbatim (the source never does arithmetic on them). -/

inductive Json where
  | null : Json
  | bool : Bool → Json
  | num : String → Json
  | str : String → Json
  | arr : List Json → Json
  | obj : List (String × Json) → Json

/-- Model of Python dict lookup on a parsed JSON object: for duplicate keys
`json.loads` keeps the last occurrence, so lookup returns the last binding. -/
def lookupLast (kvs : List (String × Json)) (k : String) : Option Json :=
  match kvs with
  | [] => none
  | (k', v) :: rest =>
    match lookupLast rest k with
    | some r => some r
    | none => if k' = k then some v else none

/-- Model of Python `d.get(key)` on a JSON object (`none` on non-objects). -/
def Json.lookup (j : Json) (k : String) : Option Json :=
  match j with
  | .obj kvs => lookupLast kvs k
  | _ => none

/-- Model of Python truthiness for a JSON/dict value. -/
def jsonTruthy : Json → Bool
  | .null => false
  | .bool b => b
  | .num lex => (lex.data.takeWhile (fun c => c ≠ 'e' ∧ c ≠ 'E')).any (fun c => c.isDigit && c ≠ '0')
  | .str s => s ≠ ""
  | .arr xs => !xs.isEmpty
  | .obj kvs => !kvs.isEmpty

/-- Model of Python `parsed or fallback` on an optional dict (an empty dict is
falsy, so it also selects the fallback). -/
def pyOrJson (o : Option Json) (fallback : Json) : Json :=
  match o with
  | some j => if jsonTruthy j then j else fallback
  | none => fallback

/-- Model of Python `d.get(key, default)` restricted to string values. The
source stores whatever value the model returned; a non-string value would
fault further down the Python pipeline, so it is collapsed to the default. -/
def jsonGetStr (j : Json) (k : String) (dflt : String) : String :=
  match j.lookup k with
  | some (.str s) => s
  | _ => dflt

/-! ## JSON parser (model of `json.loads` on the fragments the source feeds it) -/

/-- JSON insignificant whitespace. -/
def jsonWs (c : Char) : Bool :=
  c = ' ' || c = '\t' || c = '\n' || c = '\r'

/-- Drops leading JSON whitespace. -/
def skipWs (cs : List Char) : List Char :=
  cs.dropWhile jsonWs

/-- Value of a hexadecimal digit. -/
def hexVal (c : Char) : Option Nat :=
  if '0' ≤ c ∧ c ≤ '9' then some (c.toNat - '0'.toNat)
  else if 'a' ≤ c ∧ c ≤ 'f' then some (c.toNat - 'a'.toNat + 10)
  else if 'A' ≤ c ∧ c ≤ 'F' then some (c.toNat - 'A'.toNat + 10)
  else none

/-- Decodes one JSON string escape (after the backslash). -/
def parseEscape : List Char → Option (Char × List Char)
  | '"' :: rest => some ('"', rest)
  | '\\' :: rest => some ('\\', rest)
  | '/' :: rest => some ('/', rest)
  | 'b' :: rest => some ('\x08', rest)
  | 'f' :: rest => some ('\x0c', rest)
  | 'n' :: rest => some ('\n', rest)
  | 'r' :: rest => some ('\r', rest)
  | 't' :: rest => some ('\t', rest)
  | 'u' :: a :: b :: c :: d :: rest =>
    match hexVal a, hexVal b, hexVal c, hexVal d with
    | some ha, some hb, some hc, some hd =>
      some (Char.ofNat (((ha * 16 + hb) * 16 + hc) * 16 + hd), rest)
    | _, _, _, _ => none
  | _ => none

/-- Parses the body of a JSON string after the opening quote. -/
def parseStringBody (fuel : Nat) (cs : List Char) (acc : List Char) : Option (String × List Char) :=
  match fuel, cs with
  | 0, _ => none
  | _, [] => none
  | f + 1, c :: rest =>
    if c = '"' then some (String.mk acc.reverse, rest)
    else if c = '\\' then
      match parseEscape rest with
      | some (e, rest2) => parseStringBody f rest2 (e :: acc)
      | none => none
    else if c.toNat < 0x20 then none
    else parseStringBody f rest (c :: acc)

/-- Splits off a maximal run of decimal digits. -/
def spanDigits (cs : List Char) : List Char × List Char :=
  (cs.takeWhile Char.isDigit, cs.dropWhile Char.isDigit)

/-- Parses a JSON number lexeme (returned verbatim). -/
def parseNumber (cs : List Char) : Option (String × List Char) :=
  let (negPart, cs1) := match cs with
    | '-' :: r => (['-'], r)
    | _ => (([] : List Char), cs)
  match cs1 with
  | [] => none
  | c :: _ =>
    if !c.isDigit then none
    else
      let (ds, cs2) := spanDigits cs1
      if ds.length > 1 ∧ ds.head? = some '0' then none
      else
        let (fracPart, cs3) := match cs2 with
          | '.' :: r =>
            let (fs, r2) := spanDigits r
            if fs.isEmpty then (([] : List Char), cs2) else ('.' :: fs, r2)
          | _ => (([] : List Char), cs2)
        let (expPart, cs4) := match cs3 with
          | e :: r =>
            if e = 'e' ∨ e = 'E' then
              let (sgn, r1) := match r with
                | '+' :: rr => (['+'], rr)
                | '-' :: rr => (['-'], rr)
                | _ => (([] : List Char), r)
              let (es, r2) := spanDigits r1
              if es.isEmpty then (([] : List Char), cs3) else (e :: (sgn ++ es), r2)
            else (([] : List Char), cs3)
          | [] => (([] : List Char), cs3)
        if fracPart.isEmpty ∧ expPart.isEmpty ∧ cs2 ≠ cs3 then none
        else some (String.mk (negPart ++ ds ++ fracPart ++ expPart), cs4)

mutual

/-- Parses one JSON value, returning it with the unconsumed remainder. -/
def parseValue (fuel : Nat) (cs : List Char) : Option (Json × List Char) :=
  match fuel with
  | 0 => none
  | f + 1 =>
    match skipWs cs with
    | [] => none
    | c :: rest =>
      if c = '{' then
        match skipWs rest with
        | '}' :: r2 => some (.obj [], r2)
        | cs2 => parseMembers f cs2 []
      else if c = '[' then
        match skipWs rest with
        | ']' :: r2 => some (.arr [], r2)
        | cs2 => parseElements f cs2 []
      else if c = '"' then
        (parseStringBody (rest.length + 1) rest []).map (fun p => (Json.str p.1, p.2))
      else if c = 't' then
        match rest with
        | 'r' :: 'u' :: 'e' :: r => some (.bool true, r)
        | _ => none
      else if c = 'f' then
        match rest with
        | 'a' :: 'l' :: 's' :: 'e' :: r => some (.bool false, r)
        | _ => none
      else if c = 'n' then
        match rest with
        | 'u' :: 'l' :: 'l' :: r => some (.null, r)
        | _ => none
      else
        (parseNumber (c :: rest)).map (fun p => (Json.num p.1, p.2))

/-- Parses the members of a JSON object after the opening brace. -/
def parseMembers (fuel : Nat) (cs : List Char) (acc : List (String × Json)) :
    Option (Json × List Char) :=
  match fuel with
  | 0 => none
  | f + 1 =>
    match skipWs cs with
    | '"' :: rest =>
      match parseStringBody (rest.length + 1) rest [] with
      | none => none
      | some (key, rest2) =>
        match skipWs rest2 with
        | ':' :: rest3 =>
          match parseValue f rest3 with
          | none => none
          | some (v, rest4) =>
            match skipWs rest4 with
            | ',' :: rest5 => parseMembers f rest5 ((key, v) :: acc)
            | '}' :: rest5 => some (.obj ((key, v) :: acc).reverse, rest5)
            | _ => none
        | _ => none
    | _ => none

/-- Parses the elements of a JSON array after the opening bracket. -/
def parseElements (fuel : Nat) (cs : List Char) (acc : List Json) :
    Option (Json × List Char) :=
  match fuel with
  | 0 => none
  | f + 1 =>
    match parseValue f cs with
    | none => none
    | some (v, rest) =>
      match skipWs rest with
      | ',' :: rest2 => parseElements f rest2 (v :: acc)
      | ']' :: rest2 => some (.arr (v :: acc).reverse, rest2)
      | _ => none

end

/-- Model of Python `json.loads`: the whole string must be one JSON value
surrounded only by whitespace. -/
def Json.loads (s : String) : Option Json :=
  match parseValue (s.length + 1) s.data with
  | some (v, rest) => if skipWs rest = [] then some v else none
  | none => none

/-! ## safe_parse_json (graph.py lines 59-75) -/

/-- Model of `safe_parse_json` in `app/orchestration/graph.py`: extract the
span from the first brace to the last brace, parse it, and keep the result
only when it is a mapping; any failure yields `none`. -/
def safe_parse_json (text : String) : Option Json :=
  if text = "" then none
  else
    let start := pyFind text '{'
    let stop := pyRFind text '}' + 1
    if start = -1 ∨ stop ≤ start then none
    else
      match Json.loads (strSlice text start.toNat stop.toNat) with
      | some (.obj kvs) => some (.obj kvs)
      | _ => none

/-! ## Content normalization (graph.py lines 36-56 and critic.py lines 50-86) -/

/-- Shape of one element of a block-list content value. A `dict` block carries
its optional string-valued `"text"` and `"content"` fields together with its
Python `str()` rendering; `other` is a non-dict element with its rendering. -/
inductive Block where
  | dict (text content : Option String) (strForm : String)
  | other (strForm : String)

/-- The shapes of `response.content` the normalizers handle: absent, plain
text, a block list, a single mapping (with its `str()` rendering), or any
other value (with its `str()` rendering). -/
inductive LLMContent where
  | none : LLMContent
  | str (s : String) : LLMContent
  | list (items : List Block) : LLMContent
  | dict (strForm : String) : LLMContent
  | other (strForm : String) : LLMContent

/-- Model of Python `x or y` where `x` is an optional string field value
(an empty string is falsy). -/
def pyTruthyStrOpt : Option String → Option String
  | some s => if s = "" then none else some s
  | none => none

/-- One loop iteration of `normalize_llm_content` in graph.py:
`str(item.get("text") or item.get("content") or item)`. -/
def normalize_block (b : Block) : String :=
  match b with
  | .other sf => sf
  | .dict t c sf =>
    match pyTruthyStrOpt t with
    | some s => s
    | Option.none =>
      match pyTruthyStrOpt c with
      | some s => s
      | Option.none => sf

/-- Model of `normalize_llm_content` in `app/orchestration/graph.py`. -/
def normalize_llm_content : LLMContent → String
  | .none => ""
  | .str s => s
  | .list items => String.intercalate "\n" (items.map normalize_block)
  | .dict sf => sf
  | .other sf => sf

/-- One loop iteration of `CriticAgent._normalize_llm_content` in critic.py:
selection is by key presence (`if "text" in item`), not truthiness. -/
def CriticAgent.normalize_block (b : Block) : String :=
  match b with
  | .other sf => sf
  | .dict (some t) _ _ => t
  | .dict Option.none (some c) _ => c
  | .dict Option.none Option.none sf => sf

/-- Model of `CriticAgent._normalize_llm_content` in `app/orchestration/critic.py`. -/
def CriticAgent.normalize_llm_content : LLMContent → String
  | .none => ""
  | .str s => s
  | .list items => String.intercalate "\n" (items.map CriticAgent.normalize_block)
  | .dict sf => sf
  | .other sf => sf

/-! ## Memory data model (app/memory/models.py) -/

/-- Model of `MemoryType` in `app/memory/models.py`. -/
inductive MemoryType where
  | preferencia_usuario
  | decisao_tomada
  | resolucao_ambiguidade
  | resumo_interacao
deriving DecidableEq, Repr

/-- Model of `MemoryEntry` in `app/memory/models.py`. Timestamps are abstract
clock readings; metadata is an opaque string association list. -/
structure MemoryEntry where
  user_id : String
  tipo : MemoryType
  conteudo : String
  dominio : Option String
  timestamp : Nat
  metadata : List (String × String)
  version : Nat
  embedding_id : Option String
deriving DecidableEq, Repr

/-! ## Long-term memory store (app/memory/long_term.py)

The store is modelled in the documented FAISS-unavailable configuration
(`_faiss_index is None`), in which `search` uses `_simple_search`; the
parallel `_embeddings` list and the on-disk persistence are external effects
not reflected in the claims and are omitted. -/

/-- Model of `LongTermMemory`: the identity key and the entry log. -/
structure LongTermMemory where
  user_id : Option String
  entries : List MemoryEntry
deriving DecidableEq, Repr

/-- Model of Python `set(text.lower().split())`: the token set of a text. -/
def wordSet (s : String) : Finset String :=
  (pyWords (pyToLower s)).toFinset

/-- Stable descending insertion by score, modelling one step of Python
`list.sort(key=lambda x: x[0], reverse=True)` (which is stable). -/
def insertDescBy (x : Nat × MemoryEntry) : List (Nat × MemoryEntry) → List (Nat × MemoryEntry)
  | [] => [x]
  | y :: ys => if x.1 ≥ y.1 then x :: y :: ys else y :: insertDescBy x ys

/-- Stable descending sort by score. -/
def sortDescBy (l : List (Nat × MemoryEntry)) : List (Nat × MemoryEntry) :=
  l.foldr insertDescBy []

/-- Model of `LongTermMemory._simple_search`: score entries by shared-token
count with the query, keep positive scores, sort stably by descending score,
and return the first `limit` entries. -/
def simple_search (query : String) (entries : List MemoryEntry) (limit : Nat) :
    List MemoryEntry :=
  let query_words := wordSet query
  let scored := entries.filterMap (fun e =>
    let score := (query_words ∩ wordSet e.conteudo).card
    if score > 0 then some (score, e) else none)
  ((sortDescBy scored).take limit).map (fun p => p.2)

/-- The kind filter of `LongTermMemory.search` (`if tipo:` — an enum member is
always truthy, so any given kind filters). -/
def filterTipo (entries : List MemoryEntry) : Option MemoryType → List MemoryEntry
  | some t => entries.filter (fun e => e.tipo == t)
  | none => entries

/-- The domain filter of `LongTermMemory.search` (`if dominio:` — a `None` or
empty domain is falsy and disables the filter). -/
def filterDominio (entries : List MemoryEntry) : Option String → List MemoryEntry
  | some d => if d = "" then entries else entries.filter (fun e => e.dominio == some d)
  | none => entries

/-- Model of `LongTermMemory.search` (lexical fallback path): filter by kind
and domain, then delegate to `_simple_search`. -/
def LongTermMemory.search (lt : LongTermMemory) (query : String) (limit : Nat)
    (tipo : Option MemoryType) (dominio : Option String) : List MemoryEntry :=
  if lt.entries.isEmpty then []
  else
    let f2 := filterDominio (filterTipo lt.entries tipo) dominio
    if f2.isEmpty then []
    else simple_search query f2 limit

/-- Model of Python `self.user_id or entry.user_id` (empty string is falsy). -/
def pyOrStr (a : Option String) (b : String) : String :=
  match a with
  | some s => if s = "" then b else s
  | none => b

/-- Model of `LongTermMemory.add`: stamp the entry with the store identity and
a fresh embedding id derived from the current entry count and clock, then
append it; returns the updated store and the id. -/
def LongTermMemory.add (lt : LongTermMemory) (entry : MemoryEntry) (now : Nat) :
    LongTermMemory × String :=
  let eid := "mem_" ++ toString lt.entries.length ++ "_" ++ toString now
  let e := { entry with
    user_id := pyOrStr lt.user_id entry.user_id,
    embedding_id := some eid }
  ({ lt with entries := lt.entries ++ [e] }, eid)

/-- Model of `LongTermMemory.count`. -/
def LongTermMemory.count (lt : LongTermMemory) : Nat :=
  lt.entries.length

/-! ## Memory agent: write gate and dedup (app/memory/memory_agent.py) -/

/-- The fixed sensitive-token denylist of `MemoryAgent.should_memorize`. -/
def sensitive_patterns : List String :=
  ["senha", "password", "token", "secret", "api_key",
   "cpf", "rg", "cartao", "credit_card"]

/-- The fixed SQL keyword list of `MemoryAgent.should_memorize`. -/
def sql_patterns : List String :=
  ["select ", "insert ", "update ", "delete ", "from "]

/-- Model of `MemoryAgent.should_memorize`: the write gate. -/
def MemoryAgent.should_memorize (content : String) (tipo : MemoryType) : Bool :=
  if content = "" ∨ (pyStrip content).length < 10 then false
  else
    let content_lower := pyToLower content
    if sensitive_patterns.any (fun p => strContains content_lower p) then false
    else if (sql_patterns.filter (fun p => strContains content_lower p)).length ≥ 2 then false
    else if content.length > 2000 then false
    else
      match tipo with
      | .resolucao_ambiguidade => true
      | .preferencia_usuario => true
      | .decisao_tomada => true
      | .resumo_interacao => content.length < 500

/-- Model of `MemoryAgent._calculate_similarity`: token-set Jaccard similarity. -/
def MemoryAgent.calculate_similarity (text1 text2 : String) : ℚ :=
  let words1 := wordSet text1
  let words2 := wordSet text2
  if words1 = ∅ ∨ words2 = ∅ then 0
  else
    let inter := (words1 ∩ words2).card
    let union := (words1 ∪ words2).card
    if union > 0 then (inter : ℚ) / (union : ℚ) else 0

/-- Model of `MemoryAgent._check_duplicate`: search the top 3 same-kind/domain
entries and return the first whose Jaccard similarity exceeds 0.9. -/
def MemoryAgent.check_duplicate (lt : LongTermMemory) (content : String)
    (tipo : MemoryType) (dominio : Option String) : Option MemoryEntry :=
  (lt.search content 3 (some tipo) dominio).find?
    (fun e => MemoryAgent.calculate_similarity content e.conteudo > 9/10)

/-- Model of `MemoryAgent.memorize`: gate, dedup, then append; returns the
embedding id (none when gated away) and the updated store. -/
def MemoryAgent.memorize (userId : String) (lt : LongTermMemory) (content : String)
    (tipo : MemoryType) (dominio : Option String) (metadata : List (String × String))
    (now : Nat) : Option String × LongTermMemory :=
  if !MemoryAgent.should_memorize content tipo then (none, lt)
  else
    match MemoryAgent.check_duplicate lt content tipo dominio with
    | some existing => (existing.embedding_id, lt)
    | none =>
      let entry : MemoryEntry :=
        { user_id := userId, tipo := tipo, conteudo := content, dominio := dominio,
          timestamp := now, metadata := metadata, version := 1, embedding_id := none }
      let r := lt.add entry now
      (some r.2, r.1)

/-! ## Model registry (app/config/models.py) -/

/-- Model of `ModelProvider`. -/
inductive ModelProvider where
  | databricks
  | openai
deriving DecidableEq, Repr

/-- Model of `ModelTask`. -/
inductive ModelTask where
  | chat
  | code
  | embedding
deriving DecidableEq, Repr

/-- Model of `ModelConfig` (the fields the workflow constructor consults). -/
structure ModelConfig where
  provider : ModelProvider
  display_name : String
  task : ModelTask
  enabled : Bool
  endpoint_name : Option String
  model_name : Option String
  supports_tools : Bool
deriving DecidableEq, Repr

/-- Model of `MODELS_REGISTRY`: the static model-id registry. -/
def MODELS_REGISTRY : List (String × ModelConfig) :=
  [("databricks-gpt-5-2",
    ⟨.databricks, "GPT-5.2", .chat, true, some "databricks-gpt-5-2", none, false⟩),
   ("databricks-gpt-5-1",
    ⟨.databricks, "GPT-5.1", .chat, true, some "databricks-gpt-5-1", none, false⟩),
   ("databricks-gpt-oss-120b",
    ⟨.databricks, "GPT-OSS 120B", .chat, true, some "databricks-gpt-oss-120b", none, false⟩),
   ("databricks-gpt-oss-20b",
    ⟨.databricks, "GPT-OSS 20B", .chat, true, some "databricks-gpt-oss-20b", none, false⟩),
   ("databricks-meta-llama-3-3-70b-instruct",
    ⟨.databricks, "Llama 3.3 70B Instruct", .chat, true,
     some "databricks-meta-llama-3-3-70b-instruct", none, false⟩),
   ("databricks-meta-llama-3-1-8b-instruct",
    ⟨.databricks, "Llama 3.1 8B Instruct", .chat, true,
     some "databricks-meta-llama-3-1-8b-instruct", none, false⟩),
   ("databricks-meta-llama-3-1-405b-instruct",
    ⟨.databricks, "Llama 3.1 405B Instruct", .chat, true,
     some "databricks-meta-llama-3-1-405b-instruct", none, false⟩),
   ("databricks-qwen3-next-80b-a3b-instruct",
    ⟨.databricks, "Qwen3 Next 80B Instruct", .chat, true,
     some "databricks-qwen3-next-80b-a3b-instruct", none, false⟩),
   ("databricks-llama-4-maverick",
    ⟨.databricks, "Llama 4 Maverick", .chat, true, some "databricks-llama-4-maverick", none, false⟩),
   ("databricks-gemma-3-12b",
    ⟨.databricks, "Gemma 3 12B", .chat, true, some "databricks-gemma-3-12b", none, false⟩),
   ("databricks-gte-large-en",
    ⟨.databricks, "GTE Large EN", .embedding, true, some "databricks-gte-large-en", none, false⟩),
   ("databricks-bge-large-en",
    ⟨.databricks, "BGE Large EN", .embedding, true, some "databricks-bge-large-en", none, false⟩),
   ("databricks-qwen3-embedding-0-6b",
    ⟨.databricks, "Qwen3 Embedding 0.6B", .embedding, true,
     some "databricks-qwen3-embedding-0-6b", none, false⟩),
   ("gpt-4o-mini", ⟨.openai, "GPT-4o Mini", .chat, true, none, some "gpt-4o-mini", true⟩),
   ("gpt-4o", ⟨.openai, "GPT-4o", .chat, true, none, some "gpt-4o", true⟩)]

/-- Model of `DEFAULT_MODEL`. -/
def DEFAULT_MODEL : String := "databricks-meta-llama-3-3-70b-instruct"

/-- Model of `get_model_config`: registry lookup. -/
def get_model_config (model_id : String) : Option ModelConfig :=
  (MODELS_REGISTRY.find? (fun p => p.1 == model_id)).map (fun p => p.2)

/-- The data the workflow constructor derives before wiring the graph. The
gateway handle type is abstract. -/
structure Workflow (LLM : Type) where
  model_id : String
  supports_tools : Bool
  provider : ModelProvider
  llm : LLM

/-- Model of the configuration-resolution prefix of `create_langgraph_workflow`
(graph.py lines 130-175): resolve the model id (a falsy id selects
`DEFAULT_MODEL`), fail when the registry has no configuration, fail when
gateway construction fails (`create_llm` is the oracle), succeed otherwise.
Errors are Python exceptions, modelled with `Except`. -/
def create_langgraph_workflow {LLM : Type} (model_id : Option String)
    (create_llm : String → Except String LLM) : Except String (Workflow LLM) :=
  let mid := match model_id with
    | some s => if s = "" then DEFAULT_MODEL else s
    | none => DEFAULT_MODEL
  match get_model_config mid with
  | none => .error ("Model config not found for: " ++ mid)
  | some config =>
    match create_llm mid with
    | .error e => .error ("Failed to create LLM for model " ++ mid ++ ": " ++ e)
    | .ok llm => .ok ⟨mid, config.supports_tools, config.provider, llm⟩

/-! ## Critic stage core (graph.py lines 453-527) -/

/-- The fixed denylist of generic/evasive phrases in `critic_node`. -/
def generic_phrases : List String :=
  ["forneça mais contexto",
   "preciso de mais informações",
   "não tenho dados suficientes",
   "por favor, especifique",
   "não foi possível determinar"]

/-- The validation dict `critic_node` returns for an empty or short report. -/
def critic_short_validation : Json :=
  .obj [("is_valid", .bool false),
        ("completeness_score", .num "0"),
        ("issues", .arr [.str "Relatório final vazio ou muito curto"]),
        ("summary", .str "Falha: relatório não gerado corretamente")]

/-- The validation dict `critic_node` returns for a generic/evasive report. -/
def critic_generic_validation : Json :=
  .obj [("is_valid", .bool false),
        ("completeness_score", .num "20"),
        ("issues", .arr [.str "Relatório contém frases genéricas ou evasivas"]),
        ("summary", .str "Falha: resposta genérica detectada")]

/-- The optimistic default validation used when the critic reply fails to parse. -/
def critic_default_validation : Json :=
  .obj [("is_valid", .bool true),
        ("completeness_score", .num "70"),
        ("issues", .arr []),
        ("summary", .str "Validação automática")]

/-- Core of `critic_node`: from the consolidated report and the (normalized)
gateway reply, produce the validation dict together with a flag recording
whether the gateway was invoked at all. -/
def critic_core (final_report : String) (reply : LLMContent) : Json × Bool :=
  if final_report = "" ∨ final_report.length < 50 then
    (critic_short_validation, false)
  else if generic_phrases.any (fun p => strContains (pyToLower final_report) p) then
    (critic_generic_validation, false)
  else
    let content := normalize_llm_content reply
    (pyOrJson (safe_parse_json content) critic_default_validation, true)

/-! ## Executor stage core (graph.py lines 317-408) -/

/-- Model of one `AgentResult` dict appended by `executor_node`. -/
structure AgentResult where
  agent : String
  response : String
  success : Bool
deriving DecidableEq, Repr

/-- One loop iteration of `executor_node` for a non-visualization step: a
successful call is recorded verbatim, an exception is isolated into a
`success := false` result carrying the error text. -/
def executor_step (stepOracle : Json → Except String LLMContent) (step : Json) : AgentResult :=
  let agent_name := jsonGetStr step "agent" ""
  match stepOracle step with
  | .ok c => ⟨agent_name, normalize_llm_content c, true⟩
  | .error e => ⟨agent_name, "Erro: " ++ e, false⟩

/-- The naive concatenation `executor_node` falls back to when the
consolidation call fails. -/
def executor_fallback_report (responses : List AgentResult) : String :=
  String.intercalate "\n\n" (responses.map (fun r => "[" ++ r.agent ++ "]: " ++ r.response))

/-- Core of `executor_node`: run every non-visualization plan step through the
gateway oracle, isolating failures, then consolidate the responses into
`final_report` (falling back to concatenation when consolidation fails). -/
def executor_core (plan : List Json) (stepOracle : Json → Except String LLMContent)
    (consolidationOracle : Except String LLMContent) : List AgentResult × String :=
  let responses := (plan.filter
    (fun st => jsonGetStr st "agent" "" != "VisualizationAgent")).map (executor_step stepOracle)
  let final_report :=
    if responses.isEmpty then ""
    else
      match consolidationOracle with
      | .ok c => normalize_llm_content c
      | .error _ => executor_fallback_report responses
  (responses, final_report)

/-! ## Pipeline state machine (graph.py lines 78-624)

`AgentState` mirrors the `AgentState` TypedDict (the `messages` chat
transcript, used only for UI display, is omitted). Each node is a total state
transformer parameterized by an `Oracles` bundle standing for the external
gateway and memory collaborators; the graph wiring is the fixed linear node
sequence of `create_langgraph_workflow`. -/

/-- One recalled memory dict placed into `memory_context`. -/
structure MemoryContextItem where
  tipo : String
  conteudo : String
  dominio : Option String
deriving DecidableEq, Repr

/-- The four pipeline-progress flags of `memory_status` (as initialized by
`process_query`). -/
structure MemoryStatus where
  contexto_carregado : Bool
  memoria_consultada : Bool
  ambiguidade_resolvida : Bool
  resposta_entregue : Bool
deriving DecidableEq, Repr

/-- Model of the `AgentState` TypedDict of graph.py. -/
structure AgentState where
  original_query : String
  normalized_query : String
  active_domains : List String
  group_context : List (String × String)
  user_id : String
  ambiguity_result : Json
  ambiguity_resolved : Bool
  plan : List Json
  subagent_responses : List AgentResult
  final_report : String
  validation : Json
  final_response : String
  sources : List String
  session_id : String
  visualization_requested : Bool
  visualization_suggestion : Option Json
  visualization_data : Option Json
  memory_context : List MemoryContextItem
  memory_status : MemoryStatus

/-- The external collaborators of one pipeline run: the optional per-identity
memory store (none when no `user_id` was given, so no memory agent exists) and
the gateway replies for each stage's calls. Step replies are keyed by the plan
step; a reply of `.error e` models the call raising exception `e`. -/
structure Oracles where
  memoryStore : Option LongTermMemory
  resolverReply : LLMContent
  plannerReply : LLMContent
  stepReply : Json → Except String LLMContent
  consolidationReply : Except String LLMContent
  vizReply : LLMContent
  criticReply : LLMContent
  responseReply : LLMContent

/-- Model of `memory_recall_node`: load up to 5 recalled ambiguity resolutions
(via `recall_ambiguity_resolutions`, i.e. a kind-filtered search with limit 10)
and flip `contexto_carregado` (and `memoria_consultada` when an agent exists). -/
def memory_recall_node (o : Oracles) (s : AgentState) : AgentState :=
  match o.memoryStore with
  | some lt =>
    let memories := (lt.search s.original_query 10 (some .resolucao_ambiguidade) none).take 5
    { s with
      memory_context := memories.map (fun m => ⟨"ambiguidade", m.conteudo, m.dominio⟩),
      memory_status := { s.memory_status with
        memoria_consultada := true, contexto_carregado := true } }
  | none =>
    { s with
      memory_context := [],
      memory_status := { s.memory_status with
        memoria_consultada := false, contexto_carregado := true } }

/-- The fallback ambiguity result of `ambiguity_resolver_node`. -/
def ambiguity_fallback (original_query : String) : Json :=
  .obj [("normalized_question", .str original_query),
        ("ambiguities_detected", .arr []),
        ("requires_clarification", .bool false)]

/-- Model of `ambiguity_resolver_node`: skip entirely when already resolved;
otherwise parse the gateway reply (falling back on parse failure), store the
result, and flip `ambiguity_resolved` and the corresponding status flag. -/
def ambiguity_resolver_node (o : Oracles) (s : AgentState) : AgentState :=
  if s.ambiguity_resolved then s
  else
    let content := normalize_llm_content o.resolverReply
    let ambiguity := pyOrJson (safe_parse_json content) (ambiguity_fallback s.original_query)
    { s with
      normalized_query := jsonGetStr ambiguity "normalized_question" s.original_query,
      ambiguity_result := ambiguity,
      ambiguity_resolved := true,
      memory_status := { s.memory_status with ambiguidade_resolvida := true } }

/-- The visualization-intent keyword list of graph.py. -/
def VISUALIZATION_KEYWORDS : List String :=
  ["gráfico", "grafico", "chart", "visualização", "visualizacao",
   "plot", "plotar", "desenhar", "mostrar gráfico", "exibir gráfico",
   "barras", "pizza", "linha", "dispersão", "histograma"]

/-- Model of `check_visualization_requested`. -/
def check_visualization_requested (query : String) (plan : List Json) : Bool :=
  VISUALIZATION_KEYWORDS.any (fun k => strContains (pyToLower query) k)
  || plan.any (fun step =>
       strContains (pyToLower (jsonGetStr step "agent" "")) "visualization"
       || strContains (pyToLower (jsonGetStr step "task" "")) "visualização")

/-- Model of `planner_node`: parse a `steps` array (empty on parse failure or
falsy parse result) and compute `visualization_requested` from keywords, the
plan, and the planner's own flag. A non-array `steps` value, which would fault
in the source, is collapsed to the empty plan. -/
def planner_node (o : Oracles) (s : AgentState) : AgentState :=
  let content := normalize_llm_content o.plannerReply
  let plan_data := safe_parse_json content
  let plan := match plan_data with
    | some pd =>
      if jsonTruthy pd then
        match pd.lookup "steps" with
        | some (.arr steps) => steps
        | _ => []
      else []
    | none => []
  let fromPlanner := match plan_data with
    | some pd =>
      if jsonTruthy pd then
        match pd.lookup "requires_visualization" with
        | some v => jsonTruthy v
        | none => false
      else false
    | none => false
  { s with
    plan := plan,
    visualization_requested :=
      check_visualization_requested s.normalized_query plan || fromPlanner }

/-- Model of `executor_node` as a state transformer over `executor_core`. -/
def executor_node (o : Oracles) (s : AgentState) : AgentState :=
  let r := executor_core s.plan o.stepReply o.consolidationReply
  { s with
    subagent_responses := r.1,
    sources := r.1.map (fun a => a.agent),
    final_report := r.2 }

/-- Model of Python `viz.get(key) if viz else None` (a parsed JSON `null` and
an absent key both become Python `None`). -/
def pyDictGetOpt (o : Option Json) (k : String) : Option Json :=
  match o with
  | some j =>
    match j.lookup k with
    | some .null => none
    | some v => some v
    | none => none
  | none => none

/-- Model of `visualization_node`: explicit null suggestion/data when not
requested, otherwise parsed (best-effort) from the gateway reply. -/
def visualization_node (o : Oracles) (s : AgentState) : AgentState :=
  if s.visualization_requested = false then
    { s with visualization_suggestion := none, visualization_data := none }
  else
    let viz := safe_parse_json (normalize_llm_content o.vizReply)
    { s with
      visualization_suggestion := pyDictGetOpt viz "suggestion",
      visualization_data := pyDictGetOpt viz "chart_data" }

/-- Model of `critic_node` as a state transformer over `critic_core`. -/
def critic_node (o : Oracles) (s : AgentState) : AgentState :=
  { s with validation := (critic_core s.final_report o.criticReply).1 }

/-- Model of `response_node`: format the final answer and flip
`resposta_entregue`. -/
def response_node (o : Oracles) (s : AgentState) : AgentState :=
  { s with
    final_response := normalize_llm_content o.responseReply,
    memory_status := { s.memory_status with resposta_entregue := true } }

/-- Model of `memory_persist_node` restricted to the pipeline state: it writes
only to the external memory store and returns an empty update. -/
def memory_persist_node (_o : Oracles) (s : AgentState) : AgentState :=
  s

/-- The node applied at position `k` of the fixed linear graph wiring
(memory_recall → ambiguity_resolver → planner → executor → visualization →
critic → response → memory_persist → END). -/
def applyNode (o : Oracles) (k : Nat) (s : AgentState) : AgentState :=
  match k with
  | 0 => memory_recall_node o s
  | 1 => ambiguity_resolver_node o s
  | 2 => planner_node o s
  | 3 => executor_node o s
  | 4 => visualization_node o s
  | 5 => critic_node o s
  | 6 => response_node o s
  | 7 => memory_persist_node o s
  | _ => s

/-- Model of the initial state built by `DeepAgentOrchestrator.process_query`. -/
def initial_state (query : String) (active_domains : List String)
    (group_context : List (String × String)) : AgentState :=
  { original_query := query
    normalized_query := ""
    active_domains := active_domains
    group_context := group_context
    user_id := ""
    ambiguity_result := .obj []
    ambiguity_resolved := false
    plan := []
    subagent_responses := []
    final_report := ""
    validation := .obj []
    final_response := ""
    sources := []
    session_id := ""
    visualization_requested := false
    visualization_suggestion := none
    visualization_data := none
    memory_context := []
    memory_status := ⟨false, false, false, false⟩ }

/-- The pipeline state after the first `k` nodes have run from the initial
state (for `k ≥ 8` the terminal state). -/
def runPipeline (o : Oracles) (query : String) (active_domains : List String)
    (group_context : List (String × String)) : Nat → AgentState
  | 0 => initial_state query active_domains group_context
  | k + 1 => applyNode o k (runPipeline o query active_domains group_context k)

/-- Pointwise ordering on status flags: `statusLe a b` says every flag set in
`a` is still set in `b` (flags are only ever flipped false → true). -/
def statusLe (a b : MemoryStatus) : Prop :=
  (a.contexto_carregado = true → b.contexto_carregado = true)
  ∧ (a.memoria_consultada = true → b.memoria_consultada = true)
  ∧ (a.ambiguidade_resolvida = true → b.ambiguidade_resolvida = true)
  ∧ (a.resposta_entregue = true → b.resposta_entregue = true)

/-! ## Concrete dedup scenario

A store holding three older entries of the same kind whose token sets strictly
contain the candidate content's tokens: they tie the candidate's lexical
overlap score, filling the top-3 search window. -/

/-- The candidate content of the dedup scenario. -/
def cexContent : String := "alpha bravo charlie delta"

/-- One pre-existing stored entry of the dedup scenario. -/
def cexEntry (c : String) : MemoryEntry :=
  { user_id := "u", tipo := .decisao_tomada, conteudo := c, dominio := none,
    timestamp := 0, metadata := [], version := 1, embedding_id := some "old" }

/-- The pre-populated store of the dedup scenario: three same-kind entries,
each sharing all four of the candidate's tokens among their ten tokens
(Jaccard 0.4). -/
def cexStore : LongTermMemory :=
  { user_id := some "u",
    entries :=
      [cexEntry "alpha bravo charlie delta echo foxtrot golf hotel india julieta",
       cexEntry "alpha bravo charlie delta echo foxtrot golf hotel india kilo",
       cexEntry "alpha bravo charlie delta echo foxtrot golf hotel india lima"] }

/-! ## Claims -/

/-- C4: the JSON extractor is total and returns an optional mapping: it
locates the first brace and the last closing brace and returns `none` when
they are absent or mis-ordered; any value it returns is the JSON parse of
that span and is itself a mapping; and on the two concrete spec examples it
returns the embedded object resp. `none`, with malformed JSON between braces
also yielding `none` rather than an error. -/
theorem C4_json_extractor_contract (text : String) :
    ((pyFind text '{' = -1 ∨ pyRFind text '}' + 1 ≤ pyFind text '{') →
      safe_parse_json text = none)
    ∧ (∀ j, safe_parse_json text = some j → ∃ kvs, j = Json.obj kvs ∧
        Json.loads (strSlice text (pyFind text '{').toNat (pyRFind text '}' + 1).toNat)
          = some (Json.obj kvs))
    ∧ safe_parse_json "noise \x7b\"a\":1\x7d trailing" = some (.obj [("a", .num "1")])
    ∧ safe_parse_json "no braces here" = none
    ∧ safe_parse_json "aa \x7bnot json\x7d bb" = none := by
  refine ⟨?_, ?_, rfl, rfl, rfl⟩
  · intro h
    by_cases ht : text = ""
    · simp [safe_parse_json, ht]
    · simp only [safe_parse_json, if_neg ht]
      rw [if_pos h]
  · intro j hj
    by_cases ht : text = ""
    · simp [safe_parse_json, ht] at hj
    · simp only [safe_parse_json, if_neg ht] at hj
      by_cases h : pyFind text '{' = -1 ∨ pyRFind text '}' + 1 ≤ pyFind text '{'
      · rw [if_pos h] at hj
        exact absurd hj (by simp)
      · rw [if_neg h] at hj
        split at hj
        next kvs heq =>
          exact ⟨kvs, by simpa using hj.symm, heq⟩
        next heq hne =>
          exact absurd hj (by simp)

/-- C4 witness: a concrete application of the contract at an input with no
opening brace. -/
theorem C4_json_extractor_contract_witness :
    safe_parse_json "plain words" = none :=
  (C4_json_extractor_contract "plain words").1 (Or.inl (by decide))

/-- C5 counterexample: on the block `{"text": "", "content": "abc"}` the
pipeline normalizer of graph.py returns the `"content"` value, not the present
(but empty) `"text"` field that a strict text-first preference would select —
and the CriticAgent copy, which selects by key presence, returns the empty
text, so the two cited implementations disagree on this input. -/
theorem C5_normalizer_counterexample :
    normalize_llm_content (.list [.dict (some "") (some "abc") "sf"]) = "abc"
    ∧ CriticAgent.normalize_llm_content (.list [.dict (some "") (some "abc") "sf"]) = ""
    ∧ ("abc" : String) ≠ "" :=
  ⟨rfl, rfl, by decide⟩

/-- C5 (amended): both content normalizers are total and return a string for
every supported shape: `None` maps to the empty string, a string is returned
unchanged, a single mapping and any other value are stringified, and a block
list maps each block and joins with newlines — where the graph.py normalizer
prefers the `"text"` field when truthy (non-empty), else the `"content"` field
when truthy, else the block's string form, while the CriticAgent copy prefers
the `"text"` field whenever the key is present, else `"content"` when present,
else the string form. -/
theorem C5_normalizer_total_rules (s sf : String) (items : List Block) (t c : Option String) :
    normalize_llm_content .none = ""
    ∧ normalize_llm_content (.str s) = s
    ∧ normalize_llm_content (.dict sf) = sf
    ∧ normalize_llm_content (.other sf) = sf
    ∧ normalize_llm_content (.list items) = String.intercalate "\n" (items.map normalize_block)
    ∧ (∀ tv, t = some tv → tv ≠ "" → normalize_block (.dict t c sf) = tv)
    ∧ (pyTruthyStrOpt t = none → ∀ cv, c = some cv → cv ≠ "" →
        normalize_block (.dict t c sf) = cv)
    ∧ (pyTruthyStrOpt t = none → pyTruthyStrOpt c = none → normalize_block (.dict t c sf) = sf)
    ∧ CriticAgent.normalize_llm_content .none = ""
    ∧ CriticAgent.normalize_llm_content (.str s) = s
    ∧ CriticAgent.normalize_llm_content (.dict sf) = sf
    ∧ CriticAgent.normalize_llm_content (.other sf) = sf
    ∧ CriticAgent.normalize_llm_content (.list items)
        = String.intercalate "\n" (items.map CriticAgent.normalize_block)
    ∧ (∀ tv, CriticAgent.normalize_block (.dict (some tv) c sf) = tv)
    ∧ (∀ cv, CriticAgent.normalize_block (.dict none (some cv) sf) = cv)
    ∧ CriticAgent.normalize_block (.dict none none sf) = sf := by
  refine ⟨rfl, rfl, rfl, rfl, rfl, ?_, ?_, ?_, rfl, rfl, rfl, rfl, rfl, ?_, ?_, rfl⟩
  · rintro tv rfl htv
    simp [normalize_block, pyTruthyStrOpt, htv]
  · rintro ht cv rfl hcv
    simp only [normalize_block]
    rw [ht]
    simp [pyTruthyStrOpt, hcv]
  · intro ht hc
    simp [normalize_block, ht, hc]
  · intro tv
    rfl
  · intro cv
    rfl

/-- C5 witness: the amended rules applied at concrete blocks. -/
theorem C5_normalizer_total_rules_witness :
    normalize_block (.dict (some "hello") (some "other") "sf") = "hello"
    ∧ normalize_block (.dict (some "") none "fallback") = "fallback" :=
  ⟨(C5_normalizer_total_rules "" "sf" [] (some "hello") (some "other")).2.2.2.2.2.1
      "hello" rfl (by decide),
   (C5_normalizer_total_rules "" "fallback" [] (some "") none).2.2.2.2.2.2.2.1
      rfl rfl⟩

/-- C10: `LongTermMemory.add` is an append-only frame operation: the count
grows by exactly one, the new entry is appended at the end carrying the
freshly assigned embedding id (derived from the pre-add count and clock), and
every previously stored entry is returned unchanged at its old position. -/
theorem C10_add_append_only (lt : LongTermMemory) (entry : MemoryEntry) (now : Nat) :
    ((lt.add entry now).1.count = lt.count + 1)
    ∧ ((lt.add entry now).1.entries.take lt.entries.length = lt.entries)
    ∧ ((lt.add entry now).1.entries.getLast? = some { entry with
         user_id := pyOrStr lt.user_id entry.user_id,
         embedding_id := some (lt.add entry now).2 })
    ∧ ((lt.add entry now).2 = "mem_" ++ toString lt.entries.length ++ "_" ++ toString now)
    ∧ (∀ i, i < lt.entries.length →
        (lt.add entry now).1.entries.get? i = lt.entries.get? i) := by
  refine ⟨?_, ?_, ?_, rfl, ?_⟩
  · simp [LongTermMemory.add, LongTermMemory.count]
  · simp [LongTermMemory.add]
  · simp [LongTermMemory.add]
  · intro i hi
    simp only [LongTermMemory.add, List.get?_eq_getElem?]
    exact List.getElem?_append_left hi

/-- C10 witness: the frame property applied to a concrete one-entry store. -/
theorem C10_add_append_only_witness :
    (LongTermMemory.add
      ⟨some "u", [⟨"u", .decisao_tomada, "margem alta aprovada", none, 1, [], 1, some "mem_0_1"⟩]⟩
      ⟨"u", .preferencia_usuario, "prefere resumos curtos", none, 2, [], 1, none⟩ 7).1.entries.get? 0
    = some ⟨"u", .decisao_tomada, "margem alta aprovada", none, 1, [], 1, some "mem_0_1"⟩ :=
  ((C10_add_append_only
      ⟨some "u", [⟨"u", .decisao_tomada, "margem alta aprovada", none, 1, [], 1, some "mem_0_1"⟩]⟩
      ⟨"u", .preferencia_usuario, "prefere resumos curtos", none, 2, [], 1, none⟩ 7).2.2.2.2 0
      (by decide)).trans (by decide)

/-- C9: fatal configuration failures fail loudly before any query runs: for a
(non-falsy) model identifier with no registered configuration the workflow
constructor raises, a gateway-construction failure is re-raised, and a
successfully constructed workflow implies both a registered configuration and
a working gateway — there is no silent fallback pipeline. -/
theorem C9_fatal_config_failures {LLM : Type} (create_llm : String → Except String LLM)
    (mid : String) (hmid : mid ≠ "") :
    (get_model_config mid = none →
      create_langgraph_workflow (some mid) create_llm
        = .error ("Model config not found for: " ++ mid))
    ∧ (∀ e, create_llm mid = .error e → ∀ cfg, get_model_config mid = some cfg →
        create_langgraph_workflow (some mid) create_llm
          = .error ("Failed to create LLM for model " ++ mid ++ ": " ++ e))
    ∧ (∀ w, create_langgraph_workflow (some mid) create_llm = .ok w →
        ∃ cfg, get_model_config mid = some cfg ∧ ∃ llm, create_llm mid = .ok llm) := by
  refine ⟨?_, ?_, ?_⟩
  · intro h
    simp [create_langgraph_workflow, hmid, h]
  · intro e he cfg hcfg
    simp [create_langgraph_workflow, hmid, hcfg, he]
  · intro w hw
    simp only [create_langgraph_workflow, if_neg hmid] at hw
    rcases hcfg : get_model_config mid with _ | cfg
    · rw [hcfg] at hw
      exact absurd hw (by simp)
    · rw [hcfg] at hw
      rcases hllm : create_llm mid with e | llm
      · rw [hllm] at hw
        exact absurd hw (by simp)
      · exact ⟨cfg, rfl, llm, rfl⟩

/-- C9 witness: an unknown model identifier is rejected with an explicit
error, applying the theorem at a concrete identifier. -/
theorem C9_fatal_config_failures_witness :
    @create_langgraph_workflow Unit (some "no-such-model")
      (fun _ => .error "boom")
      = .error ("Model config not found for: " ++ "no-such-model") :=
  (@C9_fatal_config_failures Unit (fun _ => .error "boom") "no-such-model"
    (by decide)).1 (by decide)


/-- C2: the write gate rejects — and `memorize` then returns no identifier and
leaves the store untouched — whenever the content is empty or strips to fewer
than 10 characters, case-insensitively contains any sensitive denylist token
(in particular the substring "password", regardless of kind), contains two or
more of the fixed SQL keywords, or exceeds the 2000-character cap; otherwise
it accepts exactly the four allow-listed kinds, with `resumo_interacao`
additionally capped below 500 characters. -/
theorem C2_write_gate (content : String) (tipo : MemoryType) :
    ((content = "" ∨ (pyStrip content).length < 10) →
      MemoryAgent.should_memorize content tipo = false)
    ∧ (∀ p ∈ sensitive_patterns, strContains (pyToLower content) p = true →
        MemoryAgent.should_memorize content tipo = false)
    ∧ (strContains (pyToLower content) "password" = true →
        MemoryAgent.should_memorize content tipo = false)
    ∧ ((sql_patterns.filter (fun p => strContains (pyToLower content) p)).length ≥ 2 →
        MemoryAgent.should_memorize content tipo = false)
    ∧ (content.length > 2000 → MemoryAgent.should_memorize content tipo = false)
    ∧ (¬ (content = "" ∨ (pyStrip content).length < 10) →
       (∀ p ∈ sensitive_patterns, strContains (pyToLower content) p = false) →
       (sql_patterns.filter (fun p => strContains (pyToLower content) p)).length < 2 →
       content.length ≤ 2000 →
       MemoryAgent.should_memorize content tipo =
         (match tipo with
          | .resumo_interacao => decide (content.length < 500)
          | _ => true))
    ∧ (∀ uid lt dominio md now, MemoryAgent.should_memorize content tipo = false →
        (MemoryAgent.memorize uid lt content tipo dominio md now).1 = none
        ∧ (MemoryAgent.memorize uid lt content tipo dominio md now).2 = lt) := by
  refine ⟨?_, ?_, ?_, ?_, ?_, ?_, ?_⟩
  · intro h1
    simp only [MemoryAgent.should_memorize]
    rw [if_pos h1]
  · intro p hp hc
    simp only [MemoryAgent.should_memorize]
    by_cases h1 : content = "" ∨ (pyStrip content).length < 10
    · rw [if_pos h1]
    · rw [if_neg h1, if_pos (List.any_eq_true.mpr ⟨p, hp, hc⟩)]
  · intro hc
    simp only [MemoryAgent.should_memorize]
    by_cases h1 : content = "" ∨ (pyStrip content).length < 10
    · rw [if_pos h1]
    · rw [if_neg h1,
        if_pos (List.any_eq_true.mpr ⟨"password", by simp [sensitive_patterns], hc⟩)]
  · intro h3
    simp only [MemoryAgent.should_memorize]
    by_cases h1 : content = "" ∨ (pyStrip content).length < 10
    · rw [if_pos h1]
    · rw [if_neg h1]
      by_cases h2 : sensitive_patterns.any (fun p => strContains (pyToLower content) p) = true
      · rw [if_pos h2]
      · rw [if_neg h2, if_pos h3]
  · intro h4
    simp only [MemoryAgent.should_memorize]
    by_cases h1 : content = "" ∨ (pyStrip content).length < 10
    · rw [if_pos h1]
    · rw [if_neg h1]
      by_cases h2 : sensitive_patterns.any (fun p => strContains (pyToLower content) p) = true
      · rw [if_pos h2]
      · rw [if_neg h2]
        by_cases h3 : (sql_patterns.filter (fun p => strContains (pyToLower content) p)).length ≥ 2
        · rw [if_pos h3]
        · rw [if_neg h3, if_pos h4]
  · intro h1 hsens h3 h4
    have h2 : ¬ sensitive_patterns.any (fun p => strContains (pyToLower content) p) = true := by
      intro hany
      rcases List.any_eq_true.mp hany with ⟨p, hp, hc⟩
      rw [hsens p hp] at hc
      exact Bool.false_ne_true hc
    simp only [MemoryAgent.should_memorize]
    rw [if_neg h1, if_neg h2, if_neg (by omega), if_neg (by omega)]
    cases tipo <;> rfl
  · intro uid lt dominio md now hgate
    constructor <;> simp [MemoryAgent.memorize, hgate]

/-- C2 witness: the gate applied at concrete contents — a preference carrying
the substring "password" is rejected even for an allow-listed kind, a
two-keyword SQL string is rejected, and `memorize` returns no id for it. -/
theorem C2_write_gate_witness :
    MemoryAgent.should_memorize "minha PassWord favorita e segura" .preferencia_usuario = false
    ∧ MemoryAgent.should_memorize "select nome from clientes ordenado" .decisao_tomada = false
    ∧ (MemoryAgent.memorize "u" ⟨some "u", []⟩ "select nome from clientes ordenado"
        .decisao_tomada none [] 0).1 = none :=
  ⟨(C2_write_gate "minha PassWord favorita e segura" .preferencia_usuario).2.2.1 (by decide),
   (C2_write_gate "select nome from clientes ordenado" .decisao_tomada).2.2.2.1 (by decide),
   ((C2_write_gate "select nome from clientes ordenado" .decisao_tomada).2.2.2.2.2.2
      "u" ⟨some "u", []⟩ none [] 0
      ((C2_write_gate "select nome from clientes ordenado" .decisao_tomada).2.2.2.1
        (by decide))).1⟩

/-- C1: the Critic stage short-circuits on cheap local heuristics: an empty or
shorter-than-50-character report immediately yields the invalid score-0
verdict with no gateway call; otherwise a report containing any denylisted
generic/evasive phrase immediately yields the invalid score-20 verdict with no
gateway call; only when both heuristics pass is the gateway invoked, and a
reply that does not parse to a JSON mapping defaults to the optimistic valid
score-70 verdict. -/
theorem C1_critic_short_circuit (final_report : String) (reply : LLMContent) :
    ((final_report = "" ∨ final_report.length < 50) →
      critic_core final_report reply = (critic_short_validation, false)
      ∧ critic_short_validation.lookup "is_valid" = some (.bool false)
      ∧ critic_short_validation.lookup "completeness_score" = some (.num "0"))
    ∧ (¬ (final_report = "" ∨ final_report.length < 50) →
       generic_phrases.any (fun p => strContains (pyToLower final_report) p) = true →
      critic_core final_report reply = (critic_generic_validation, false)
      ∧ critic_generic_validation.lookup "is_valid" = some (.bool false)
      ∧ critic_generic_validation.lookup "completeness_score" = some (.num "20"))
    ∧ (¬ (final_report = "" ∨ final_report.length < 50) →
       generic_phrases.any (fun p => strContains (pyToLower final_report) p) = false →
      (critic_core final_report reply).2 = true
      ∧ (safe_parse_json (normalize_llm_content reply) = none →
          (critic_core final_report reply).1 = critic_default_validation
          ∧ critic_default_validation.lookup "is_valid" = some (.bool true)
          ∧ critic_default_validation.lookup "completeness_score" = some (.num "70"))) := by
  refine ⟨?_, ?_, ?_⟩
  · intro h1
    refine ⟨?_, rfl, rfl⟩
    simp only [critic_core]
    rw [if_pos h1]
  · intro h1 h2
    refine ⟨?_, rfl, rfl⟩
    simp only [critic_core]
    rw [if_neg h1, if_pos h2]
  · intro h1 h2
    have hcore : critic_core final_report reply =
        (pyOrJson (safe_parse_json (normalize_llm_content reply)) critic_default_validation,
         true) := by
      simp only [critic_core]
      rw [if_neg h1, if_neg (by simp [h2])]
    refine ⟨by rw [hcore], ?_⟩
    intro hparse
    refine ⟨?_, rfl, rfl⟩
    rw [hcore]
    simp [pyOrJson, hparse]

/-- C1 witness: the short report "need more context" (the spec's concrete
example) is rejected with score 0 and no gateway call, and a 60-character
report carrying a denylisted phrase is rejected with score 20 and no call. -/
theorem C1_critic_short_circuit_witness :
    critic_core "need more context" (.str "ignored") = (critic_short_validation, false)
    ∧ critic_core
        "aqui temos um relatorio longo o suficiente mas que diz: por favor, especifique"
        (.str "ignored") = (critic_generic_validation, false)
    ∧ (critic_core
        "relatorio longo o suficiente, objetivo e detalhado sobre a rentabilidade anual"
        (.str "sem json algum")).1 = critic_default_validation :=
  ⟨((C1_critic_short_circuit "need more context" (.str "ignored")).1
      (Or.inr (by decide))).1,
   ((C1_critic_short_circuit
      "aqui temos um relatorio longo o suficiente mas que diz: por favor, especifique"
      (.str "ignored")).2.1 (by decide) (by decide)).1,
   (((C1_critic_short_circuit
      "relatorio longo o suficiente, objetivo e detalhado sobre a rentabilidade anual"
      (.str "sem json algum")).2.2 (by decide) (by decide)).2 (by rfl)).1⟩

/-- C6: the Executor isolates failures: there is exactly one `AgentResult` per
non-visualization plan step regardless of failures; a step whose gateway call
raises is captured as `success := false` with its error text while every other
step still yields its own result; when the consolidation call fails (and at
least one response exists) `final_report` falls back to the naive
concatenation of the per-agent responses; and `final_report` is always set —
it is the empty string exactly when there are no responses. -/
theorem C6_executor_isolation (plan : List Json)
    (stepOracle : Json → Except String LLMContent)
    (consolidationOracle : Except String LLMContent) :
    ((executor_core plan stepOracle consolidationOracle).1.length
      = (plan.filter (fun st => jsonGetStr st "agent" "" != "VisualizationAgent")).length)
    ∧ (∀ i, (executor_core plan stepOracle consolidationOracle).1.get? i
        = ((plan.filter (fun st => jsonGetStr st "agent" "" != "VisualizationAgent")).get? i).map
            (executor_step stepOracle))
    ∧ (∀ step e, stepOracle step = .error e →
        executor_step stepOracle step = ⟨jsonGetStr step "agent" "", "Erro: " ++ e, false⟩)
    ∧ ((executor_core plan stepOracle consolidationOracle).1 ≠ [] →
       ∀ e, consolidationOracle = .error e →
        (executor_core plan stepOracle consolidationOracle).2
          = executor_fallback_report (executor_core plan stepOracle consolidationOracle).1)
    ∧ ((executor_core plan stepOracle consolidationOracle).1 = [] →
        (executor_core plan stepOracle consolidationOracle).2 = "") := by
  refine ⟨?_, ?_, ?_, ?_, ?_⟩
  · simp [executor_core]
  · intro i
    simp [executor_core, List.get?_eq_getElem?]
  · intro step e he
    simp [executor_step, he]
  · intro hne e he
    have hne' : ((plan.filter
        (fun st => jsonGetStr st "agent" "" != "VisualizationAgent")).map
          (executor_step stepOracle)).isEmpty = false := by
      simpa [executor_core, List.isEmpty_iff] using hne
    simp [executor_core, hne', he]
  · intro hnil
    have hnil' : ((plan.filter
        (fun st => jsonGetStr st "agent" "" != "VisualizationAgent")).map
          (executor_step stepOracle)) = [] := by
      simpa [executor_core] using hnil
    simp [executor_core, hnil']

/-- C6 witness: a two-step plan whose first step fails still produces both
results, and a failing consolidation falls back to the concatenation. -/
theorem C6_executor_isolation_witness :
    (executor_core
      [Json.obj [("agent", .str "CadastroAgent"), ("task", .str "t1")],
       Json.obj [("agent", .str "FinanceiroAgent"), ("task", .str "t2")]]
      (fun st => if jsonGetStr st "agent" "" == "CadastroAgent"
                 then .error "timeout da API"
                 else .ok (.str "dados financeiros ok"))
      (.error "consolidation down")).1
      = [⟨"CadastroAgent", "Erro: " ++ "timeout da API", false⟩,
         ⟨"FinanceiroAgent", "dados financeiros ok", true⟩]
    ∧ (executor_core
      [Json.obj [("agent", .str "CadastroAgent"), ("task", .str "t1")],
       Json.obj [("agent", .str "FinanceiroAgent"), ("task", .str "t2")]]
      (fun st => if jsonGetStr st "agent" "" == "CadastroAgent"
                 then .error "timeout da API"
                 else .ok (.str "dados financeiros ok"))
      (.error "consolidation down")).2
      = executor_fallback_report
          [⟨"CadastroAgent", "Erro: " ++ "timeout da API", false⟩,
           ⟨"FinanceiroAgent", "dados financeiros ok", true⟩] := by
  constructor
  · rfl
  · have h := (C6_executor_isolation
      [Json.obj [("agent", .str "CadastroAgent"), ("task", .str "t1")],
       Json.obj [("agent", .str "FinanceiroAgent"), ("task", .str "t2")]]
      (fun st => if jsonGetStr st "agent" "" == "CadastroAgent"
                 then .error "timeout da API"
                 else .ok (.str "dados financeiros ok"))
      (.error "consolidation down")).2.2.2.1 (by decide) "consolidation down" rfl
    rw [h]
    rfl

/-- C7: the AmbiguityResolver stage is skipped entirely — the state is
unchanged — whenever `ambiguity_resolved` is already true; otherwise it runs,
always sets `ambiguity_resolved` (and the corresponding status flag) to true,
and when the gateway reply fails to parse as a JSON mapping it falls back to
exactly the dict with the original query as normalized question, no detected
ambiguities, and no clarification required. -/
theorem C7_ambiguity_resolver_reentry (o : Oracles) (s : AgentState) :
    (s.ambiguity_resolved = true → ambiguity_resolver_node o s = s)
    ∧ (s.ambiguity_resolved = false →
        (ambiguity_resolver_node o s).ambiguity_resolved = true
        ∧ (ambiguity_resolver_node o s).memory_status.ambiguidade_resolvida = true
        ∧ (safe_parse_json (normalize_llm_content o.resolverReply) = none →
            (ambiguity_resolver_node o s).ambiguity_result = ambiguity_fallback s.original_query
            ∧ (ambiguity_resolver_node o s).normalized_query = s.original_query)) := by
  refine ⟨?_, ?_⟩
  · intro h
    simp [ambiguity_resolver_node, h]
  · intro h
    refine ⟨by simp [ambiguity_resolver_node, h], by simp [ambiguity_resolver_node, h], ?_⟩
    intro hp
    constructor
    · simp [ambiguity_resolver_node, h, pyOrJson, hp]
    · simp only [ambiguity_resolver_node, h, Bool.false_eq_true, if_false, pyOrJson, hp]
      simp [jsonGetStr, ambiguity_fallback, Json.lookup, lookupLast]

/-- C7 witness: from a fresh state with an unparsable resolver reply, the
node runs, flips the flag, and stores the exact fallback result. -/
theorem C7_ambiguity_resolver_reentry_witness :
    (ambiguity_resolver_node
      ⟨none, .str "sem json", .str "", fun _ => .ok (.str ""), .ok (.str ""),
       .str "", .str "", .str ""⟩
      (initial_state "qual a margem?" [] [])).ambiguity_result
      = ambiguity_fallback "qual a margem?" :=
  (((C7_ambiguity_resolver_reentry
      ⟨none, .str "sem json", .str "", fun _ => .ok (.str ""), .ok (.str ""),
       .str "", .str "", .str ""⟩
      (initial_state "qual a margem?" [] [])).2 rfl).2.2 (by rfl)).1

/-- Status effect of the MemoryRecall node: it loads the context flag, records
whether a memory agent was consulted, and touches nothing else. -/
theorem memory_recall_node_status (o : Oracles) (s : AgentState) :
    (memory_recall_node o s).memory_status
      = ⟨true, o.memoryStore.isSome, s.memory_status.ambiguidade_resolvida,
         s.memory_status.resposta_entregue⟩
    ∧ (memory_recall_node o s).ambiguity_resolved = s.ambiguity_resolved := by
  cases h : o.memoryStore <;> simp [memory_recall_node, h]

/-- Status effect of the AmbiguityResolver node on an unresolved state. -/
theorem resolver_node_status (o : Oracles) (s : AgentState)
    (h : s.ambiguity_resolved = false) :
    (ambiguity_resolver_node o s).memory_status
      = ⟨s.memory_status.contexto_carregado, s.memory_status.memoria_consultada,
         true, s.memory_status.resposta_entregue⟩
    ∧ (ambiguity_resolver_node o s).ambiguity_resolved = true := by
  simp [ambiguity_resolver_node, h]

/-- The Visualization node never touches the status flags or the resolution
marker. -/
theorem visualization_node_status (o : Oracles) (s : AgentState) :
    (visualization_node o s).memory_status = s.memory_status
    ∧ (visualization_node o s).ambiguity_resolved = s.ambiguity_resolved := by
  by_cases h : s.visualization_requested = false <;> simp [visualization_node, h]

/-- Characterization of the progress flags along a pipeline run: the context
flag holds exactly from after MemoryRecall (step 1), the consultation flag
records the presence of a memory agent from step 1 on, the resolution flag
holds exactly from after AmbiguityResolver (step 2), and the delivery flag
from after Response (step 7). -/
theorem runPipeline_status (o : Oracles) (q : String) (d : List String)
    (g : List (String × String)) :
    ∀ k, (runPipeline o q d g k).memory_status
        = ⟨decide (1 ≤ k), decide (1 ≤ k) && o.memoryStore.isSome,
           decide (2 ≤ k), decide (7 ≤ k)⟩
      ∧ (runPipeline o q d g k).ambiguity_resolved = decide (2 ≤ k) := by
  intro k
  induction k with
  | zero => exact ⟨rfl, rfl⟩
  | succ n ih =>
    rcases ih with ⟨ihms, ihar⟩
    rcases n with _ | _ | _ | _ | _ | _ | _ | _ | m
    · -- step 1: memory_recall
      have h := memory_recall_node_status o (runPipeline o q d g 0)
      refine ⟨?_, ?_⟩
      · rw [show runPipeline o q d g 1 = memory_recall_node o (runPipeline o q d g 0) from rfl,
          h.1, ihms]
        simp
      · rw [show runPipeline o q d g 1 = memory_recall_node o (runPipeline o q d g 0) from rfl,
          h.2, ihar]
        rfl
    · -- step 2: ambiguity_resolver (runs because the state is unresolved)
      have h := resolver_node_status o (runPipeline o q d g 1) (by rw [ihar]; rfl)
      refine ⟨?_, ?_⟩
      · rw [show runPipeline o q d g 2
            = ambiguity_resolver_node o (runPipeline o q d g 1) from rfl, h.1, ihms]
        simp
      · rw [show runPipeline o q d g 2
            = ambiguity_resolver_node o (runPipeline o q d g 1) from rfl, h.2]
        rfl
    · -- step 3: planner (status-preserving)
      exact ⟨ihms, ihar⟩
    · -- step 4: executor (status-preserving)
      exact ⟨ihms, ihar⟩
    · -- step 5: visualization (status-preserving)
      have h := visualization_node_status o (runPipeline o q d g 4)
      refine ⟨?_, ?_⟩
      · rw [show runPipeline o q d g 5
            = visualization_node o (runPipeline o q d g 4) from rfl, h.1, ihms]
        rfl
      · rw [show runPipeline o q d g 5
            = visualization_node o (runPipeline o q d g 4) from rfl, h.2, ihar]
        rfl
    · -- step 6: critic (status-preserving)
      exact ⟨ihms, ihar⟩
    · -- step 7: response (sets the delivery flag)
      refine ⟨?_, ?_⟩
      · rw [show runPipeline o q d g 7 = response_node o (runPipeline o q d g 6) from rfl]
        rw [show (response_node o (runPipeline o q d g 6)).memory_status
            = ⟨(runPipeline o q d g 6).memory_status.contexto_carregado,
               (runPipeline o q d g 6).memory_status.memoria_consultada,
               (runPipeline o q d g 6).memory_status.ambiguidade_resolvida,
               true⟩ from rfl, ihms]
        simp
      · rw [show runPipeline o q d g 7 = response_node o (runPipeline o q d g 6) from rfl,
          show (response_node o (runPipeline o q d g 6)).ambiguity_resolved
            = (runPipeline o q d g 6).ambiguity_resolved from rfl, ihar]
        rfl
    · -- step 8: memory_persist (identity on the pipeline state)
      exact ⟨ihms, ihar⟩
    · -- beyond the terminal node the state is stable
      exact ⟨ihms, ihar⟩

/-- C8: along every pipeline run from the initial state (all flags false),
`ambiguidade_resolvida` implies `contexto_carregado`; `contexto_carregado`
holds only once MemoryRecall has run (at least one step), and
`ambiguidade_resolvida` only once the resolver has also run; and every status
flag is monotone — once true it stays true at every later step. -/
theorem C8_status_ordering (o : Oracles) (q : String) (d : List String)
    (g : List (String × String)) (k : Nat) :
    ((runPipeline o q d g k).memory_status.ambiguidade_resolvida = true →
      (runPipeline o q d g k).memory_status.contexto_carregado = true)
    ∧ ((runPipeline o q d g k).memory_status.contexto_carregado = true → 1 ≤ k)
    ∧ ((runPipeline o q d g k).memory_status.ambiguidade_resolvida = true → 2 ≤ k)
    ∧ statusLe (runPipeline o q d g k).memory_status
        (runPipeline o q d g (k + 1)).memory_status := by
  have h := (runPipeline_status o q d g k).1
  have h1 := (runPipeline_status o q d g (k + 1)).1
  rw [h, h1]
  refine ⟨?_, ?_, ?_, ?_, ?_, ?_, ?_⟩
  · intro ha
    simp only [decide_eq_true_eq] at ha ⊢
    omega
  · intro hc
    simpa using hc
  · intro ha
    simpa using ha
  · intro hc
    simp only [decide_eq_true_eq] at hc ⊢
    omega
  · intro hm
    simp only [Bool.and_eq_true, decide_eq_true_eq] at hm ⊢
    exact ⟨by omega, hm.2⟩
  · intro ha
    simp only [decide_eq_true_eq] at ha ⊢
    omega
  · intro hr
    simp only [decide_eq_true_eq] at hr ⊢
    omega

/-- C8 witness: after two steps of a concrete run the resolution flag implies
the context flag, which in turn certifies that MemoryRecall has run. -/
theorem C8_status_ordering_witness :
    1 ≤ 2 ∧ (runPipeline
      ⟨none, .str "", .str "", fun _ => .ok (.str ""), .ok (.str ""),
       .str "", .str "", .str ""⟩ "q" [] [] 2).memory_status.contexto_carregado = true :=
  ⟨(C8_status_ordering
      ⟨none, .str "", .str "", fun _ => .ok (.str ""), .ok (.str ""),
       .str "", .str "", .str ""⟩ "q" [] [] 2).2.1
    ((C8_status_ordering
      ⟨none, .str "", .str "", fun _ => .ok (.str ""), .ok (.str ""),
       .str "", .str "", .str ""⟩ "q" [] [] 2).1 (by rfl)),
   (C8_status_ordering
      ⟨none, .str "", .str "", fun _ => .ok (.str ""), .ok (.str ""),
       .str "", .str "", .str ""⟩ "q" [] [] 2).1 (by rfl)⟩

/-- Membership in the kind-filtered entries implies membership in the store. -/
theorem mem_filterTipo {l : List MemoryEntry} {tipo : Option MemoryType} {e : MemoryEntry}
    (h : e ∈ filterTipo l tipo) : e ∈ l := by
  cases tipo with
  | none => exact h
  | some t => exact (List.mem_filter.mp h).1

/-- Membership in the domain-filtered entries implies membership in the store. -/
theorem mem_filterDominio {l : List MemoryEntry} {dominio : Option String} {e : MemoryEntry}
    (h : e ∈ filterDominio l dominio) : e ∈ l := by
  cases dominio with
  | none => exact h
  | some d =>
    by_cases hd : d = ""
    · simpa [filterDominio, hd] using h
    · simp only [filterDominio, if_neg hd] at h
      exact (List.mem_filter.mp h).1

/-- An appended entry of the filtered kind survives the kind filter. -/
theorem filterTipo_append_match (l : List MemoryEntry) (E : MemoryEntry)
    (tipo : MemoryType) (h : E.tipo = tipo) :
    filterTipo (l ++ [E]) (some tipo) = filterTipo l (some tipo) ++ [E] := by
  simp [filterTipo, List.filter_append, h]

/-- An appended entry of the filtered domain survives the domain filter. -/
theorem filterDominio_append_match (l : List MemoryEntry) (E : MemoryEntry)
    (dominio : Option String) (h : E.dominio = dominio) :
    filterDominio (l ++ [E]) dominio = filterDominio l dominio ++ [E] := by
  cases dominio with
  | none => rfl
  | some d =>
    by_cases hd : d = ""
    · simp [filterDominio, hd]
    · simp [filterDominio, hd, List.filter_append, h]

/-- Lexical search over entries sharing no token with the query is empty. -/
theorem simple_search_nil_of_no_overlap (query : String) (entries : List MemoryEntry)
    (limit : Nat) (h : ∀ e ∈ entries, wordSet query ∩ wordSet e.conteudo = ∅) :
    simple_search query entries limit = [] := by
  simp only [simple_search]
  rw [List.filterMap_eq_nil_iff.mpr (fun e he => by simp [h e he])]
  simp [sortDescBy]

/-- Lexical search where only the last entry shares tokens with the query
returns exactly that entry. -/
theorem simple_search_append_single (query : String) (entries : List MemoryEntry)
    (limit : Nat) (E : MemoryEntry) (hlim : 0 < limit)
    (hold : ∀ e ∈ entries, wordSet query ∩ wordSet e.conteudo = ∅)
    (hE : (wordSet query ∩ wordSet E.conteudo).Nonempty) :
    simple_search query (entries ++ [E]) limit = [E] := by
  simp only [simple_search]
  rw [List.filterMap_append,
    List.filterMap_eq_nil_iff.mpr (fun e he => by simp [hold e he]),
    show List.filterMap (fun e =>
        if (wordSet query ∩ wordSet e.conteudo).card > 0
        then some ((wordSet query ∩ wordSet e.conteudo).card, e) else none) [E]
      = [((wordSet query ∩ wordSet E.conteudo).card, E)] from by simp [hE]]
  cases limit with
  | zero => omega
  | succ n => simp [sortDescBy, insertDescBy]

/-- Store search over entries sharing no token with the query is empty. -/
theorem search_nil_of_no_overlap (lt : LongTermMemory) (query : String) (limit : Nat)
    (tipo : Option MemoryType) (dominio : Option String)
    (h : ∀ e ∈ lt.entries, wordSet query ∩ wordSet e.conteudo = ∅) :
    lt.search query limit tipo dominio = [] := by
  simp only [LongTermMemory.search]
  by_cases he : lt.entries.isEmpty
  · rw [if_pos he]
  · rw [if_neg he]
    by_cases hf : (filterDominio (filterTipo lt.entries tipo) dominio).isEmpty
    · rw [if_pos hf]
    · rw [if_neg hf]
      exact simple_search_nil_of_no_overlap query _ limit
        (fun e he' => h e (mem_filterTipo (mem_filterDominio he')))

/-- A text with a nonempty token set has Jaccard similarity 1 with itself. -/
theorem calculate_similarity_self (s : String) (h : wordSet s ≠ ∅) :
    MemoryAgent.calculate_similarity s s = 1 := by
  simp only [MemoryAgent.calculate_similarity]
  rw [if_neg (by simp [h]), Finset.inter_self, Finset.union_self]
  have hc : 0 < (wordSet s).card :=
    Finset.card_pos.mpr (Finset.nonempty_iff_ne_empty.mpr h)
  rw [if_pos hc]
  have : ((wordSet s).card : ℚ) ≠ 0 := by
    exact_mod_cast Nat.pos_iff_ne_zero.mp hc
  field_simp

/-- A content sharing four of an entry's ten tokens has Jaccard similarity
0.4, below the dedup threshold. -/
theorem cex_sim_not_dup (s : String)
    (hi : (wordSet cexContent ∩ wordSet s).card = 4)
    (hu : (wordSet cexContent ∪ wordSet s).card = 10) :
    decide (MemoryAgent.calculate_similarity cexContent s > 9/10) = false := by
  apply decide_eq_false
  simp only [MemoryAgent.calculate_similarity]
  have hne : ¬ (wordSet cexContent = ∅ ∨ wordSet s = ∅) := by
    push_neg
    have hinter : (wordSet cexContent ∩ wordSet s).Nonempty := by
      rw [← Finset.card_pos, hi]; omega
    exact ⟨Finset.nonempty_iff_ne_empty.mp (hinter.mono Finset.inter_subset_left),
           Finset.nonempty_iff_ne_empty.mp (hinter.mono Finset.inter_subset_right)⟩
  rw [if_neg hne, hi, hu, if_pos (by omega)]
  norm_num

/-- C3 counterexample: from a store holding three same-kind entries that tie
the candidate's lexical-overlap score, two consecutive `memorize` calls with
identical gate-passing content, kind, and domain return two different
identifiers — the three ties fill the top-3 search window of
`_check_duplicate`, crowding out the entry written by the first call, so the
second call appends again instead of deduplicating. -/
theorem C3_memorize_idempotence_counterexample :
    MemoryAgent.should_memorize cexContent .decisao_tomada = true
    ∧ (MemoryAgent.memorize "u" cexStore cexContent .decisao_tomada none [] 0).1
        = some "mem_3_0"
    ∧ (MemoryAgent.memorize "u"
        (MemoryAgent.memorize "u" cexStore cexContent .decisao_tomada none [] 0).2
        cexContent .decisao_tomada none [] 0).1 = some "mem_4_0"
    ∧ (some "mem_3_0" : Option String) ≠ some "mem_4_0" := by
  have hgate : MemoryAgent.should_memorize cexContent .decisao_tomada = true := by decide
  have hd1 := cex_sim_not_dup
    "alpha bravo charlie delta echo foxtrot golf hotel india julieta" (by decide) (by decide)
  have hd2 := cex_sim_not_dup
    "alpha bravo charlie delta echo foxtrot golf hotel india kilo" (by decide) (by decide)
  have hd3 := cex_sim_not_dup
    "alpha bravo charlie delta echo foxtrot golf hotel india lima" (by decide) (by decide)
  have hsearch1 : cexStore.search cexContent 3 (some .decisao_tomada) none
      = cexStore.entries := by decide
  have hdup1 : MemoryAgent.check_duplicate cexStore cexContent .decisao_tomada none
      = none := by
    simp only [MemoryAgent.check_duplicate]
    rw [hsearch1]
    simp only [cexStore, cexEntry, List.find?_cons, List.find?_nil, hd1, hd2, hd3]
  have hfst : MemoryAgent.memorize "u" cexStore cexContent .decisao_tomada none [] 0
      = (some "mem_3_0",
         ⟨some "u", cexStore.entries ++
           [{ user_id := "u", tipo := .decisao_tomada, conteudo := cexContent,
              dominio := none, timestamp := 0, metadata := [], version := 1,
              embedding_id := some "mem_3_0" }]⟩) := by
    simp only [MemoryAgent.memorize, hgate, Bool.not_true, Bool.false_eq_true, if_false, hdup1]
    rfl
  have hsearch2 : LongTermMemory.search
      ⟨some "u", cexStore.entries ++
        [{ user_id := "u", tipo := .decisao_tomada, conteudo := cexContent,
           dominio := none, timestamp := 0, metadata := [], version := 1,
           embedding_id := some "mem_3_0" }]⟩ cexContent 3 (some .decisao_tomada) none
      = cexStore.entries := by decide
  have hdup2 : MemoryAgent.check_duplicate
      ⟨some "u", cexStore.entries ++
        [{ user_id := "u", tipo := .decisao_tomada, conteudo := cexContent,
           dominio := none, timestamp := 0, metadata := [], version := 1,
           embedding_id := some "mem_3_0" }]⟩ cexContent .decisao_tomada none
      = none := by
    simp only [MemoryAgent.check_duplicate]
    rw [hsearch2]
    simp only [cexStore, cexEntry, List.find?_cons, List.find?_nil, hd1, hd2, hd3]
  refine ⟨hgate, by rw [hfst], ?_, by decide⟩
  rw [hfst]
  simp only [MemoryAgent.memorize, hgate, Bool.not_true, Bool.false_eq_true, if_false, hdup2]
  rfl

/-- C3 (amended): `memorize` is idempotent whenever the first write's entry is
reachable by the second call's top-3 dedup search — guaranteed in particular
when no previously stored entry shares a token with the content: then calling
`memorize` twice with the same gate-passing content, kind, and domain returns
the same identifier both times (and an identifier is indeed returned), because
the second call's search returns exactly the first call's entry and its
self-similarity 1 exceeds the 0.9 Jaccard threshold. With three or more
same-kind/domain entries tying the content's lexical-overlap score, the
duplicate can be crowded out of the top-3 search results and a fresh
identifier is issued instead. -/
theorem C3_memorize_dedup_idempotent (userId : String) (lt : LongTermMemory)
    (content : String) (tipo : MemoryType) (dominio : Option String)
    (md md2 : List (String × String)) (now now2 : Nat)
    (hgate : MemoryAgent.should_memorize content tipo = true)
    (hwords : wordSet content ≠ ∅)
    (hdisj : ∀ e ∈ lt.entries, wordSet content ∩ wordSet e.conteudo = ∅) :
    (MemoryAgent.memorize userId
        (MemoryAgent.memorize userId lt content tipo dominio md now).2
        content tipo dominio md2 now2).1
      = (MemoryAgent.memorize userId lt content tipo dominio md now).1
    ∧ (MemoryAgent.memorize userId lt content tipo dominio md now).1.isSome = true := by
  have hdup1 : MemoryAgent.check_duplicate lt content tipo dominio = none := by
    simp only [MemoryAgent.check_duplicate]
    rw [search_nil_of_no_overlap lt content 3 (some tipo) dominio hdisj]
    rfl
  have hfst : MemoryAgent.memorize userId lt content tipo dominio md now
      = (some ("mem_" ++ toString lt.entries.length ++ "_" ++ toString now),
         ⟨lt.user_id, lt.entries ++
           [{ user_id := pyOrStr lt.user_id userId, tipo := tipo, conteudo := content,
              dominio := dominio, timestamp := now, metadata := md, version := 1,
              embedding_id := some ("mem_" ++ toString lt.entries.length ++ "_" ++ toString now) }]⟩) := by
    simp only [MemoryAgent.memorize, hgate, Bool.not_true, Bool.false_eq_true, if_false, hdup1]
    rfl
  set E : MemoryEntry :=
    ({ user_id := pyOrStr lt.user_id userId, tipo := tipo, conteudo := content,
       dominio := dominio, timestamp := now, metadata := md, version := 1,
       embedding_id := some ("mem_" ++ toString lt.entries.length ++ "_" ++ toString now) }
      : MemoryEntry) with hEdef
  have hsearch2 : LongTermMemory.search ⟨lt.user_id, lt.entries ++ [E]⟩ content 3
      (some tipo) dominio = [E] := by
    simp only [LongTermMemory.search]
    rw [if_neg (by simp),
      filterTipo_append_match lt.entries E tipo rfl,
      filterDominio_append_match _ E dominio rfl,
      if_neg (by simp)]
    exact simple_search_append_single content _ 3 E (by omega)
      (fun e he => hdisj e (mem_filterTipo (mem_filterDominio he)))
      (by
        rw [show E.conteudo = content from rfl, Finset.inter_self]
        exact Finset.nonempty_iff_ne_empty.mpr hwords)
  have hsim : MemoryAgent.calculate_similarity content E.conteudo > 9/10 := by
    rw [show E.conteudo = content from rfl, calculate_similarity_self content hwords]
    norm_num
  have hdup2 : MemoryAgent.check_duplicate ⟨lt.user_id, lt.entries ++ [E]⟩
      content tipo dominio = some E := by
    simp only [MemoryAgent.check_duplicate]
    rw [hsearch2, List.find?_cons, decide_eq_true hsim]
  rw [hfst]
  constructor
  · simp only [MemoryAgent.memorize, hgate, Bool.not_true, Bool.false_eq_true, if_false, hdup2]
  · rfl

/-- C3 witness: from an empty store, memorizing the same decision twice (at
different clock readings) returns the identifier assigned by the first call
both times. -/
theorem C3_memorize_dedup_idempotent_witness :
    (MemoryAgent.memorize "u"
        (MemoryAgent.memorize "u" ⟨some "u", []⟩ "prefere resumo mensal detalhado"
          .decisao_tomada none [] 0).2
        "prefere resumo mensal detalhado" .decisao_tomada none [] 5).1
      = (MemoryAgent.memorize "u" ⟨some "u", []⟩ "prefere resumo mensal detalhado"
          .decisao_tomada none [] 0).1 :=
  (C3_memorize_dedup_idempotent "u" ⟨some "u", []⟩ "prefere resumo mensal detalhado"
    .decisao_tomada none [] [] 0 5 (by decide) (by decide)
    (by intro e he; cases he)).1
